import Mathlib

/-!
Verification of the `aludel` database layer (`aludel/database.py`).

The development shallowly embeds the collection/metadata subsystem:

* `make_table` — declarative table templates instantiated under concrete
  prefixed names (`make_table.make_table`, `make_table.copy_args`);
* the prefixed naming scheme (`TableCollection.get_table_name`,
  `CollectionMetadata.get_table_name`);
* a model of the external storage backend at the interface the spec
  describes (statement execution over an explicit database state, with
  engine-style textual error reporting);
* the stateful operations of `_PrefixedTables`, `CollectionMetadata` and
  `TableCollection` (table creation with "already exists" tolerance,
  query-error normalisation, the metadata cache, get/set/create of
  collection metadata rows).

Python exceptions travelling down Twisted deferred chains are modelled
with `Except`: a callback corresponds to matching on `Except.ok` and an
errback to matching on `Except.error`; side effects performed before a
failure persist, so every operation returns its updated state together
with the `Except` outcome.
-/

namespace Aludel

/-! ### String containment, as used by the error-classifying errbacks -/

/-- Boolean test that the first list is a prefix of the second. -/
def isPre : List Char → List Char → Bool
| [], _ => true
| _ :: _, [] => false
| a :: as, b :: bs => a == b && isPre as bs

/-- Boolean test that `pat` occurs as a contiguous substring of the second list. -/
def hasSub (pat : List Char) : List Char → Bool
| [] => pat.isEmpty
| c :: rest => isPre pat (c :: rest) || hasSub pat rest

/-- Python's `needle in haystack` on strings: substring containment. -/
def strContains (hay pat : String) : Bool := hasSub pat.data hay.data

/-! ### `make_table`: declarative table templates (database.py lines 22-35)

Column objects are mutable Python objects; object identity is modelled by
tagging every `Column` with an allocation id, and `Column.copy` by drawing
a fresh id from a counter that instantiation threads through.
-/

/-- Model of a SQLAlchemy `Column` object: an allocation id (object
identity) plus its structural attributes. -/
structure Column where
  objId : Nat
  cname : String
  ctype : String
  primary_key : Bool
  nullable : Bool
deriving DecidableEq, Repr

/-- Copy of a column: fresh object identity, same structural attributes. -/
def Column.copy (c : Column) (fresh : Nat) : Column :=
  { c with objId := fresh }

/-- A positional argument of a `Table` constructor: either a `Column`
object or some other (immutable) argument. -/
inductive Arg where
| column (c : Column)
| other (v : String)
deriving DecidableEq, Repr

/-- Model of the `make_table` descriptor class: it stores the constructor
arguments (`self.args`; keyword arguments are opaque pass-through values). -/
structure make_table where
  args : List Arg
  kw : List (String × String) := []
deriving DecidableEq, Repr

/-- Model of a materialised SQLAlchemy `Table`: concrete name plus the
arguments the constructor received. -/
structure Table where
  name : String
  targs : List Arg
  tkw : List (String × String)
deriving DecidableEq, Repr

/-- Embedding of `make_table.copy_args` (lines 30-35): each `Column`
argument is yielded as a copy (fresh object id from the allocator),
every other argument is yielded unchanged. Returns the argument list and
the advanced allocation counter. -/
def make_table.copy_args : List Arg → Nat → List Arg × Nat
| [], ctr => ([], ctr)
| .column c :: rest, ctr =>
  let (tl, ctr') := make_table.copy_args rest (ctr + 1)
  (.column (c.copy ctr) :: tl, ctr')
| .other v :: rest, ctr =>
  let (tl, ctr') := make_table.copy_args rest ctr
  (.other v :: tl, ctr')

/-- Embedding of `make_table.make_table` (lines 27-28): builds a `Table`
under the given concrete name from a copy of the stored arguments. -/
def make_table.make_table (mt : make_table) (name : String) (ctr : Nat) :
    Table × Nat :=
  let (as', ctr') := make_table.copy_args mt.args ctr
  ({ name := name, targs := as', tkw := mt.kw }, ctr')

/-- Structural attributes of an argument, forgetting object identity. -/
def Arg.struct : Arg → String × String × Bool × Bool ⊕ String
| .column c => .inl (c.cname, c.ctype, c.primary_key, c.nullable)
| .other v => .inr v

/-- Structural view of a table: its name, argument structure in order, and
keyword arguments — everything except object identities. -/
def Table.struct (t : Table) : String × List (String × String × Bool × Bool ⊕ String) × List (String × String) :=
  (t.name, t.targs.map Arg.struct, t.tkw)

/-- Object ids of the column objects a table holds. -/
def Table.colIds (t : Table) : List Nat :=
  t.targs.filterMap (fun a => match a with | .column c => some c.objId | .other _ => none)

/-- Object ids of the column arguments in a list. -/
def argIds (l : List Arg) : List Nat :=
  l.filterMap (fun a => match a with | .column c => some c.objId | .other _ => none)

/-! ### Backend model

Modelled from the spec (section 6): the SQL backend is an external
collaborator, specified only at its interface.  The engine state is the
set of existing physical tables plus the rows of metadata tables; the
statements the layer issues are CREATE TABLE, SELECT by name, INSERT and
UPDATE on the metadata table.  Failures are reported with engine-style
message text ("table X already exists", "no such table: X", UNIQUE
constraint messages), which is exactly what the errbacks classify.
`broken` lists tables whose creation the engine currently refuses for an
unrelated operational reason (the "database is locked" condition), used
to model backend failures that are neither "already exists" nor "no such
table".
-/

/-- Failure travelling down a deferred chain: the two backend exception
classes (`OperationalError` and an integrity/constraint error class that
is not `OperationalError`), and the two domain errors of `database.py`. -/
inductive Err where
| operational (msg : String)
| integrity (msg : String)
| tableMissing (msg : String)
| collectionMissing (cname : String)
deriving DecidableEq, Repr

/-- Row of a metadata table as fetched by a SELECT. -/
structure Row where
  name : String
  metadata_json : String
deriving DecidableEq, Repr

/-- Stored row: owning table name plus the row contents. -/
structure MRow where
  table : String
  name : String
  metadata_json : String
deriving DecidableEq, Repr

/-- Result of a successfully executed statement: either no result set, or
the selected rows. -/
inductive Res where
| done
| rows (rs : List Row)
deriving DecidableEq, Repr

/-- Database state: existing tables, stored metadata rows, and tables
whose creation currently fails with an unrelated operational error. -/
structure DB where
  tables : List String
  mrows : List MRow
  broken : List String := []
deriving DecidableEq, Repr

/-- Statements issued by this layer. -/
inductive Stmt where
| createTable (tname : String)
| selectByName (tname : String) (nm : String)
| insertRow (tname : String) (nm : String) (js : String)
| updateRow (tname : String) (nm : String) (js : String)
deriving DecidableEq, Repr

/-- Predicate (as a `Bool`) that a stored row belongs to the given table
and collection name. -/
def matchRow (tname nm : String) (r : MRow) : Bool :=
  decide (r.table = tname ∧ r.name = nm)

/-- Lookup of the stored payload text for `(tname, nm)`. -/
def DB.rowLookup (db : DB) (tname nm : String) : Option String :=
  (db.mrows.find? (matchRow tname nm)).map (·.metadata_json)

/-- Modelled from the spec: `connection.execute` of the storage engine.
Errors leave the database state unchanged and carry the engine's message
text. -/
def conn_execute (db : DB) : Stmt → DB × Except Err Res
| .createTable tname =>
  if tname ∈ db.broken then
    (db, .error (.operational "database is locked"))
  else if tname ∈ db.tables then
    (db, .error (.operational ("table " ++ tname ++ " already exists")))
  else
    ({ db with tables := db.tables ++ [tname] }, .ok .done)
| .selectByName tname nm =>
  if tname ∈ db.tables then
    (db, .ok (.rows ((db.mrows.filter (matchRow tname nm)).map
      (fun r => { name := r.name, metadata_json := r.metadata_json }))))
  else
    (db, .error (.operational ("no such table: " ++ tname)))
| .insertRow tname nm js =>
  if tname ∈ db.tables then
    if (db.mrows.find? (matchRow tname nm)).isSome then
      (db, .error (.integrity ("UNIQUE constraint failed: " ++ tname ++ ".name")))
    else
      ({ db with mrows := db.mrows ++ [⟨tname, nm, js⟩] }, .ok .done)
  else
    (db, .error (.operational ("no such table: " ++ tname)))
| .updateRow tname nm js =>
  if tname ∈ db.tables then
    ({ db with mrows := db.mrows.map (fun r =>
        if matchRow tname nm r then { r with metadata_json := js } else r) },
     .ok .done)
  else
    (db, .error (.operational ("no such table: " ++ tname)))

/-- Cursor `fetchone`: first row of the result set, if any. -/
def fetchone : Res → Option Row
| .done => none
| .rows rs => rs.head?

/-! ### `_PrefixedTables` (database.py lines 38-95) -/

/-- Embedding of the errback inside `_PrefixedTables._create_table`
(lines 62-67): trap `OperationalError`; if the message contains an
instantiated "already exists" template for this table's name, swallow the
failure (`none`); otherwise return the failure unchanged. -/
def table_exists_errback (tname : String) : Err → Option Err
| .operational msg =>
  if strContains msg ("table " ++ tname ++ " already exists")
      || strContains msg ("table \"" ++ tname ++ "\" already exists") then
    none
  else some (.operational msg)
| e => some e

/-- Embedding of `_PrefixedTables._create_table` (lines 53-71): execute a
CREATE TABLE; a swallowed "already exists" failure resolves the step
successfully, anything else leaves the chain failed. -/
def _create_table (db : DB) (tname : String) : DB × Except Err Unit :=
  let (db', r) := conn_execute db (.createTable tname)
  match r with
  | .ok _ => (db', .ok ())
  | .error e =>
    match table_exists_errback tname e with
    | none => (db', .ok ())
    | some e' => (db', .error e')

/-- Embedding of `_PrefixedTables._create_tables` (lines 73-77): create
every declared table in order inside one transaction; a failed step skips
all later callbacks, so later tables are not attempted and the error
surfaces; the final commit is a no-op of the transaction model. -/
def _create_tables (db : DB) : List String → DB × Except Err Unit
| [] => (db, .ok ())
| tname :: rest =>
  match _create_table db tname with
  | (db', .ok _) => _create_tables db' rest
  | (db', .error e) => (db', .error e)

/-- Embedding of the errback inside `_PrefixedTables.execute_query`
(lines 84-88): trap `OperationalError`; a message containing
"no such table: " is re-raised as `TableMissingError` carrying the
backend message (which names the table); anything else passes through. -/
def table_missing_errback : Err → Err
| .operational msg =>
  if strContains msg "no such table: " then .tableMissing msg
  else .operational msg
| e => e

/-- Embedding of `_PrefixedTables.execute_query` (lines 83-91). -/
def execute_query (db : DB) (q : Stmt) : DB × Except Err Res :=
  let (db', r) := conn_execute db q
  (db', match r with
        | .ok v => .ok v
        | .error e => .error (table_missing_errback e))

/-- Embedding of `_PrefixedTables.execute_fetchall` (lines 93-95). -/
def execute_fetchall (db : DB) (q : Stmt) : DB × Except Err (List Row) :=
  let (db', r) := execute_query db q
  (db', match r with
        | .ok (.rows rs) => .ok rs
        | .ok .done => .ok []
        | .error e => .error e)

/-! ### `CollectionMetadata` (database.py lines 98-192)

Metadata payloads are opaque structured values; the JSON codec is an
external collaborator (spec section 1), modelled at its interface: a
payload is represented by its canonical serialised text, over which
`json.dumps` and `json.loads` are mutually inverse identities.
-/

/-- Modelled from the spec: `json.dumps` of the excluded JSON collaborator
(payloads are represented by their canonical serialised text). -/
def json_dumps (m : String) : String := m

/-- Modelled from the spec: `json.loads`, inverse of `json_dumps`. -/
def json_loads (s : String) : String := s

/-- Serialised text of the empty payload `dict()` that
`create_collection` defaults to. -/
def empty_payload : String := "\x7b\x7d"

/-- The metadata cache `_metadata_cache`: an association list from
collection name to the decoded payload; a `none` value is a stored entry
recording that the row was looked up and found absent. -/
abbrev Cache := List (String × Option String)

/-- Cache lookup: `some v` when an entry for `k` is stored (`v` itself
an `Option`), `none` when `k` was never cached. -/
def cacheLookup (c : Cache) (k : String) : Option (Option String) :=
  (c.find? (fun e => e.1 == k)).map (·.2)

/-- Python's `dict.pop(k, None)`. -/
def cacheErase (c : Cache) (k : String) : Cache :=
  c.filter (fun e => !(e.1 == k))

/-- Python's `dict.update({k: v})`: the entry for `k` is replaced. -/
def cacheSet (c : Cache) (k : String) (v : Option String) : Cache :=
  cacheErase c k ++ [(k, v)]

/-- State of a `CollectionMetadata` instance: its `name` (the owning
collection type) and the metadata cache. -/
structure CollectionMetadata where
  name : String
  cache : Cache := []
deriving DecidableEq, Repr

namespace CollectionMetadata

/-- Embedding of `CollectionMetadata.get_table_name` (lines 118-119):
`role_ownerName`. -/
def get_table_name (cm : CollectionMetadata) (tname : String) : String :=
  tname ++ "_" ++ cm.name

/-- Physical name of the one declared table, `collection_metadata`
(lines 105-108). -/
def collection_metadata (cm : CollectionMetadata) : String :=
  cm.get_table_name "collection_metadata"

/-- Embedding of `CollectionMetadata.exists` (lines 121-123): engine-level
`has_table` probe for the metadata table itself. -/
def exists' (cm : CollectionMetadata) (db : DB) : Bool :=
  decide (cm.collection_metadata ∈ db.tables)

/-- Embedding of `CollectionMetadata.create` (lines 125-126). -/
def create (cm : CollectionMetadata) (db : DB) : DB × Except Err Unit :=
  _create_tables db [cm.collection_metadata]

/-- Embedding of `CollectionMetadata._update_metadata` (lines 128-131)
specialised to the single-entry updates the class performs. -/
def _update_metadata (cm : CollectionMetadata) (nm : String) (v : Option String) :
    CollectionMetadata :=
  { cm with cache := cacheSet cm.cache nm v }

/-- Embedding of `CollectionMetadata._add_row_to_metadata` (lines
133-138): decode the fetched row (or `none` when absent), store the
result in the cache, and pass it on. -/
def _add_row_to_metadata (cm : CollectionMetadata) (row : Option Row) (nm : String) :
    CollectionMetadata × Option String :=
  let metadata := row.map (fun r => json_loads r.metadata_json)
  (cm._update_metadata nm metadata, metadata)

/-- Embedding of `CollectionMetadata._raise_if_none` (lines 140-143). -/
def _raise_if_none (metadata : Option String) (nm : String) : Except Err String :=
  match metadata with
  | none => .error (.collectionMissing nm)
  | some m => .ok m

/-- Embedding of `CollectionMetadata.get_metadata` (lines 145-156): on a
cache miss, SELECT the row, fetch one result, record it in the cache;
on a hit, use the cached value; either way raise if the value is the
absence marker. -/
def get_metadata (cm : CollectionMetadata) (db : DB) (nm : String) :
    CollectionMetadata × DB × Except Err String :=
  match cacheLookup cm.cache nm with
  | none =>
    let (db', r) := execute_query db (.selectByName cm.collection_metadata nm)
    match r with
    | .error e => (cm, db', .error e)
    | .ok res =>
      let (cm', metadata) := cm._add_row_to_metadata (fetchone res) nm
      (cm', db', _raise_if_none metadata nm)
  | some v => (cm, db, _raise_if_none v nm)

/-- Embedding of `CollectionMetadata.set_metadata` (lines 158-166): evict
the cache entry, UPDATE the row by name, and on success repopulate the
cache from the written value. -/
def set_metadata (cm : CollectionMetadata) (db : DB) (nm : String) (metadata : String) :
    CollectionMetadata × DB × Except Err Unit :=
  let cm1 : CollectionMetadata := { cm with cache := cacheErase cm.cache nm }
  let (db', r) := execute_query db
    (.updateRow cm1.collection_metadata nm (json_dumps metadata))
  match r with
  | .error e => (cm1, db', .error e)
  | .ok _ => (cm1._update_metadata nm (some metadata), db', .ok ())

/-- Embedding of `CollectionMetadata._create_collection` (lines 168-175):
no-op when the collection already exists, otherwise INSERT the row and on
success populate the cache. -/
def _create_collection (cm : CollectionMetadata) (db : DB) (exists_ : Bool)
    (nm : String) (metadata : String) :
    CollectionMetadata × DB × Except Err Unit :=
  if exists_ then (cm, db, .ok ())
  else
    let (db', r) := execute_query db
      (.insertRow cm.collection_metadata nm (json_dumps metadata))
    match r with
    | .error e => (cm, db', .error e)
    | .ok _ => (cm._update_metadata nm (some metadata), db', .ok ())

/-- Embedding of `CollectionMetadata.get_metadata` wrapped by
`collection_exists` (lines 184-192): success maps to `true`;
`CollectionMissingError` is trapped to `false`; other failures
propagate. -/
def collection_exists (cm : CollectionMetadata) (db : DB) (nm : String) :
    CollectionMetadata × DB × Except Err Bool :=
  match cm.get_metadata db nm with
  | (cm', db', .ok _) => (cm', db', .ok true)
  | (cm', db', .error (.collectionMissing _)) => (cm', db', .ok false)
  | (cm', db', .error e) => (cm', db', .error e)

/-- Embedding of `CollectionMetadata.create_collection` (lines 177-182):
default the payload, check existence and delegate to
`_create_collection`. -/
def create_collection (cm : CollectionMetadata) (db : DB) (nm : String)
    (metadata : Option String) :
    CollectionMetadata × DB × Except Err Unit :=
  let md := metadata.getD empty_payload
  match cm.collection_exists db nm with
  | (cm', db', .ok b) => cm'._create_collection db' b nm md
  | (cm', db', .error e) => (cm', db', .error e)

end CollectionMetadata

/-! ### `TableCollection` (database.py lines 195-237) -/

/-- The class-level data of a `TableCollection` subclass: its class name,
the optional `COLLECTION_TYPE` override, and the roles (attribute names)
of its declared `make_table` templates, in declaration order. -/
structure TCClass where
  className : String
  COLLECTION_TYPE : Option String := none
  table_roles : List String := []
deriving DecidableEq, Repr

/-- Instance state of a `TableCollection`: its class and instance name. -/
structure TableCollection where
  cls : TCClass
  name : String
deriving DecidableEq, Repr

namespace TableCollection

/-- Embedding of the classmethod `TableCollection.collection_type`
(lines 214-219): `COLLECTION_TYPE` when set, otherwise the class name. -/
def collection_type (cls : TCClass) : String :=
  match cls.COLLECTION_TYPE with
  | some ctype => ctype
  | none => cls.className

/-- Embedding of `TableCollection.__init__` (lines 207-212): when no
`collection_metadata` store is passed, a `CollectionMetadata` scoped to
`collection_type()` with a fresh (empty) cache is created. -/
def init (cls : TCClass) (nm : String)
    (collection_metadata : Option CollectionMetadata) :
    TableCollection × CollectionMetadata :=
  (⟨cls, nm⟩,
   match collection_metadata with
   | some cm => cm
   | none => { name := collection_type cls })

/-- Embedding of `TableCollection.get_table_name` (lines 221-222):
`collectionType_instanceName_role`. -/
def get_table_name (tc : TableCollection) (tname : String) : String :=
  collection_type tc.cls ++ "_" ++ tc.name ++ "_" ++ tname

/-- Physical names of the declared tables, as materialised by
`_PrefixedTables.__init__` (lines 42-47) and walked by
`_create_tables`. -/
def sorted_tables (tc : TableCollection) : List String :=
  tc.cls.table_roles.map tc.get_table_name

/-- Embedding of `TableCollection.exists` (lines 224-225): delegation to
the metadata store's `collection_exists`. -/
def exists' (tc : TableCollection) (cm : CollectionMetadata) (db : DB) :
    CollectionMetadata × DB × Except Err Bool :=
  cm.collection_exists db tc.name

/-- Embedding of `TableCollection.create_tables` (lines 227-231): create
this collection's own tables, then on success register the metadata
row. -/
def create_tables (tc : TableCollection) (cm : CollectionMetadata) (db : DB)
    (metadata : Option String) :
    CollectionMetadata × DB × Except Err Unit :=
  let (db1, r) := _create_tables db tc.sorted_tables
  match r with
  | .error e => (cm, db1, .error e)
  | .ok _ => cm.create_collection db1 tc.name metadata

/-- Embedding of `TableCollection.get_metadata` (lines 233-234). -/
def get_metadata (tc : TableCollection) (cm : CollectionMetadata) (db : DB) :
    CollectionMetadata × DB × Except Err String :=
  cm.get_metadata db tc.name

/-- Embedding of `TableCollection.set_metadata` (lines 236-237). -/
def set_metadata (tc : TableCollection) (cm : CollectionMetadata) (db : DB)
    (metadata : String) :
    CollectionMetadata × DB × Except Err Unit :=
  cm.set_metadata db tc.name metadata

end TableCollection

/-! ### Helper lemmas: string containment -/

theorem isPre_iff : ∀ l1 l2 : List Char, isPre l1 l2 = true ↔ l1 <+: l2
| [], l2 => by simp [isPre]
| _ :: _, [] => by simp [isPre]
| a :: as, b :: bs => by
  rw [isPre, Bool.and_eq_true, beq_iff_eq, isPre_iff as bs, List.cons_prefix_cons]

theorem hasSub_iff (pat : List Char) : ∀ l, hasSub pat l = true ↔ pat <:+: l
| [] => by simp [hasSub, List.isEmpty_iff]
| c :: rest => by
  rw [hasSub, Bool.or_eq_true, isPre_iff, hasSub_iff pat rest, List.infix_cons_iff]

theorem strContains_iff (hay pat : String) :
    strContains hay pat = true ↔ pat.data <:+: hay.data := hasSub_iff _ _

theorem strContains_lead (pat rest : String) :
    strContains (pat ++ rest) pat = true := by
  rw [strContains_iff, String.data_append]
  exact (List.prefix_append pat.data rest.data).isInfix

theorem strContains_self (s : String) : strContains s s = true := by
  rw [strContains_iff]

theorem not_strContains_of_length_lt (hay pat : String)
    (h : hay.data.length < pat.data.length) : strContains hay pat = false := by
  rw [← Bool.not_eq_true, strContains_iff]
  intro hinf
  exact absurd hinf.length_le (by omega)

/-! ### Helper lemmas: separator joins -/

theorem sep_split {a a' b b' : List Char} (ha : '_' ∉ a) (ha' : '_' ∉ a') :
    a ++ '_' :: b = a' ++ '_' :: b' → a = a' ∧ b = b' := by
  induction a generalizing a' with
  | nil =>
    cases a' with
    | nil => intro h; simpa using h
    | cons c t =>
      intro h
      simp only [List.nil_append, List.cons_append, List.cons.injEq] at h
      exact absurd (by rw [← h.1]; exact List.mem_cons_self _ _ :
        ('_' : Char) ∈ c :: t) ha'
  | cons c t ih =>
    cases a' with
    | nil =>
      intro h
      simp only [List.nil_append, List.cons_append, List.cons.injEq] at h
      exact absurd (by rw [h.1]; exact List.mem_cons_self _ _ :
        ('_' : Char) ∈ c :: t) ha
    | cons c' t' =>
      intro h
      simp only [List.cons_append, List.cons.injEq] at h
      obtain ⟨rfl, h2⟩ := h
      have := ih (fun hm => ha (List.mem_cons_of_mem _ hm))
        (fun hm => ha' (List.mem_cons_of_mem _ hm)) h2
      exact ⟨by rw [this.1], this.2⟩

theorem underscore_join2_inj {a a' b b' : String}
    (ha : '_' ∉ a.data) (ha' : '_' ∉ a'.data)
    (h : a ++ "_" ++ b = a' ++ "_" ++ b') : a = a' ∧ b = b' := by
  have hd := congrArg String.data h
  simp only [String.data_append] at hd
  have hd' : a.data ++ '_' :: b.data = a'.data ++ '_' :: b'.data := by
    simpa using hd
  obtain ⟨h1, h2⟩ := sep_split ha ha' hd'
  exact ⟨String.ext h1, String.ext h2⟩

theorem underscore_join3_inj {a a' b b' c c' : String}
    (ha : '_' ∉ a.data) (ha' : '_' ∉ a'.data)
    (hb : '_' ∉ b.data) (hb' : '_' ∉ b'.data)
    (h : a ++ "_" ++ b ++ "_" ++ c = a' ++ "_" ++ b' ++ "_" ++ c') :
    a = a' ∧ b = b' ∧ c = c' := by
  have hd := congrArg String.data h
  simp only [String.data_append] at hd
  have hd' : a.data ++ '_' :: (b.data ++ '_' :: c.data) =
      a'.data ++ '_' :: (b'.data ++ '_' :: c'.data) := by
    simpa [List.append_assoc] using hd
  obtain ⟨h1, h2⟩ := sep_split ha ha' hd'
  obtain ⟨h3, h4⟩ := sep_split hb hb' h2
  exact ⟨String.ext h1, String.ext h3, String.ext h4⟩

/-! ### Helper lemmas: the metadata cache -/

theorem cacheLookup_nil (k : String) : cacheLookup [] k = none := rfl

theorem find?_cacheErase (c : Cache) (k : String) :
    (cacheErase c k).find? (fun e => e.1 == k) = none := by
  rw [List.find?_eq_none]
  intro x hx
  have := List.of_mem_filter hx
  simpa using this

theorem cacheLookup_set_self (c : Cache) (k : String) (v : Option String) :
    cacheLookup (cacheSet c k v) k = some v := by
  unfold cacheSet cacheLookup
  rw [List.find?_append, find?_cacheErase]
  simp [List.find?]

theorem cacheLookup_erase_self (c : Cache) (k : String) :
    cacheLookup (cacheErase c k) k = none := by
  unfold cacheLookup
  rw [find?_cacheErase]
  rfl

theorem cacheErase_set_self (c : Cache) (k : String) (v : Option String) :
    cacheErase (cacheSet c k v) k = cacheErase c k := by
  unfold cacheSet cacheErase
  rw [List.filter_append]
  simp [List.filter_filter]

theorem cacheErase_idem (c : Cache) (k : String) :
    cacheErase (cacheErase c k) k = cacheErase c k := by
  unfold cacheErase
  rw [List.filter_filter]
  congr 1
  funext e
  cases h : e.1 == k <;> simp [h]

theorem cacheSet_set_self (c : Cache) (k : String) (v v' : Option String) :
    cacheSet (cacheSet c k v) k v' = cacheSet c k v' := by
  show cacheErase (cacheSet c k v) k ++ [(k, v')] = cacheSet c k v'
  rw [cacheErase_set_self]
  rfl

/-! ### Helper lemmas: error classification -/

theorem strContains_exists_template (tname : String) :
    strContains ("table " ++ tname ++ " already exists")
      ("table " ++ tname ++ " already exists") = true :=
  strContains_self _

theorem locked_message_short (tname : String) :
    strContains "database is locked" ("table " ++ tname ++ " already exists") = false := by
  apply not_strContains_of_length_lt
  rw [String.data_append, String.data_append, List.length_append, List.length_append,
    show ("database is locked" : String).data.length = 18 from by decide,
    show ("table " : String).data.length = 6 from by decide,
    show (" already exists" : String).data.length = 15 from by decide]
  omega

theorem locked_message_short' (tname : String) :
    strContains "database is locked" ("table \"" ++ tname ++ "\" already exists") = false := by
  apply not_strContains_of_length_lt
  rw [String.data_append, String.data_append, List.length_append, List.length_append,
    show ("database is locked" : String).data.length = 18 from by decide,
    show ("table \"" : String).data.length = 7 from by decide,
    show ("\" already exists" : String).data.length = 16 from by decide]
  omega

theorem table_exists_errback_locked (tname : String) :
    table_exists_errback tname (.operational "database is locked") =
      some (.operational "database is locked") := by
  simp only [table_exists_errback]
  rw [locked_message_short, locked_message_short']
  rfl

theorem table_exists_errback_exists (tname : String) :
    table_exists_errback tname
      (.operational ("table " ++ tname ++ " already exists")) = none := by
  simp only [table_exists_errback]
  rw [strContains_exists_template]
  rfl

/-! ### Helper lemmas: table creation -/

theorem conn_createTable (db : DB) (tname : String) :
    conn_execute db (.createTable tname) =
      if tname ∈ db.broken then
        (db, .error (.operational "database is locked"))
      else if tname ∈ db.tables then
        (db, .error (.operational ("table " ++ tname ++ " already exists")))
      else
        ({ db with tables := db.tables ++ [tname] }, .ok .done) := rfl

theorem _create_table_new {db : DB} {tname : String}
    (hb : tname ∉ db.broken) (ht : tname ∉ db.tables) :
    _create_table db tname = ({ db with tables := db.tables ++ [tname] }, .ok ()) := by
  simp only [_create_table, conn_createTable, if_neg hb, if_neg ht]

theorem _create_table_exists {db : DB} {tname : String}
    (hb : tname ∉ db.broken) (ht : tname ∈ db.tables) :
    _create_table db tname = (db, .ok ()) := by
  simp only [_create_table, conn_createTable, if_neg hb, if_pos ht,
    table_exists_errback_exists]

theorem _create_table_broken {db : DB} {tname : String} (hb : tname ∈ db.broken) :
    _create_table db tname = (db, .error (.operational "database is locked")) := by
  simp only [_create_table, conn_createTable, if_pos hb, table_exists_errback_locked]

theorem _create_tables_all_new : ∀ (ts : List String) (db : DB),
    (∀ t ∈ ts, t ∉ db.broken) → (∀ t ∈ ts, t ∉ db.tables) → ts.Nodup →
    _create_tables db ts = ({ db with tables := db.tables ++ ts }, .ok ())
| [], db, _, _, _ => by simp [_create_tables]
| t :: rest, db, hb, ht, hnd => by
  have h1 := _create_table_new (hb t (List.mem_cons_self t rest))
    (ht t (List.mem_cons_self t rest))
  have hrest := _create_tables_all_new rest { db with tables := db.tables ++ [t] }
    (fun x hx => hb x (List.mem_cons_of_mem t hx))
    (fun x hx => by
      simp only [List.mem_append, List.mem_singleton]
      rintro (hx' | rfl)
      · exact ht x (List.mem_cons_of_mem t hx) hx'
      · exact (List.nodup_cons.mp hnd).1 hx)
    (List.nodup_cons.mp hnd).2
  simp only [_create_tables, h1, hrest]
  simp [List.append_assoc]

theorem _create_tables_all_exist : ∀ (ts : List String) (db : DB),
    (∀ t ∈ ts, t ∉ db.broken) → (∀ t ∈ ts, t ∈ db.tables) →
    _create_tables db ts = (db, .ok ())
| [], db, _, _ => by simp [_create_tables]
| t :: rest, db, hb, ht => by
  have h1 := _create_table_exists (hb t (List.mem_cons_self t rest))
    (ht t (List.mem_cons_self t rest))
  have hrest := _create_tables_all_exist rest db
    (fun x hx => hb x (List.mem_cons_of_mem t hx))
    (fun x hx => ht x (List.mem_cons_of_mem t hx))
  simp only [_create_tables, h1, hrest]

/-! ### Helper lemmas: query execution -/

theorem conn_selectByName (db : DB) (tname nm : String) :
    conn_execute db (.selectByName tname nm) =
      if tname ∈ db.tables then
        (db, .ok (.rows ((db.mrows.filter (matchRow tname nm)).map
          (fun r => { name := r.name, metadata_json := r.metadata_json }))))
      else
        (db, .error (.operational ("no such table: " ++ tname))) := rfl

theorem conn_insertRow (db : DB) (tname nm js : String) :
    conn_execute db (.insertRow tname nm js) =
      if tname ∈ db.tables then
        if (db.mrows.find? (matchRow tname nm)).isSome then
          (db, .error (.integrity ("UNIQUE constraint failed: " ++ tname ++ ".name")))
        else
          ({ db with mrows := db.mrows ++ [⟨tname, nm, js⟩] }, .ok .done)
      else
        (db, .error (.operational ("no such table: " ++ tname))) := rfl

theorem conn_updateRow (db : DB) (tname nm js : String) :
    conn_execute db (.updateRow tname nm js) =
      if tname ∈ db.tables then
        ({ db with mrows := db.mrows.map (fun r =>
            if matchRow tname nm r then { r with metadata_json := js } else r) },
         .ok .done)
      else
        (db, .error (.operational ("no such table: " ++ tname))) := rfl

theorem table_missing_errback_integrity (msg : String) :
    table_missing_errback (.integrity msg) = .integrity msg := rfl

theorem table_missing_errback_nst {msg : String}
    (h : strContains msg "no such table: " = true) :
    table_missing_errback (.operational msg) = .tableMissing msg := by
  simp only [table_missing_errback, h]
  rfl

theorem table_missing_errback_op {msg : String}
    (h : strContains msg "no such table: " = false) :
    table_missing_errback (.operational msg) = .operational msg := by
  simp only [table_missing_errback, h]
  rfl

theorem execute_query_select_ok {db : DB} {tname nm : String} (ht : tname ∈ db.tables) :
    execute_query db (.selectByName tname nm) =
      (db, .ok (.rows ((db.mrows.filter (matchRow tname nm)).map
        (fun r => { name := r.name, metadata_json := r.metadata_json })))) := by
  simp only [execute_query, conn_selectByName, if_pos ht]

theorem execute_query_select_missing {db : DB} {tname : String} (nm : String)
    (ht : tname ∉ db.tables) :
    execute_query db (.selectByName tname nm) =
      (db, .error (.tableMissing ("no such table: " ++ tname))) := by
  simp only [execute_query, conn_selectByName, if_neg ht,
    table_missing_errback_nst (strContains_lead "no such table: " tname)]

theorem execute_query_update_ok {db : DB} {tname : String} (nm js : String)
    (ht : tname ∈ db.tables) :
    execute_query db (.updateRow tname nm js) =
      ({ db with mrows := db.mrows.map (fun r =>
          if matchRow tname nm r then { r with metadata_json := js } else r) },
       .ok .done) := by
  simp only [execute_query, conn_updateRow, if_pos ht]

theorem execute_query_insert_ok {db : DB} {tname nm : String} (js : String)
    (ht : tname ∈ db.tables) (hf : db.mrows.find? (matchRow tname nm) = none) :
    execute_query db (.insertRow tname nm js) =
      ({ db with mrows := db.mrows ++ [⟨tname, nm, js⟩] }, .ok .done) := by
  simp only [execute_query, conn_insertRow, if_pos ht, hf, Option.isSome_none,
    Bool.false_eq_true, if_false]

theorem execute_query_insert_dup {db : DB} {tname nm : String} (js : String)
    (ht : tname ∈ db.tables) (hf : (db.mrows.find? (matchRow tname nm)).isSome = true) :
    execute_query db (.insertRow tname nm js) =
      (db, .error (.integrity ("UNIQUE constraint failed: " ++ tname ++ ".name"))) := by
  simp only [execute_query, conn_insertRow, if_pos ht, hf, if_true,
    table_missing_errback_integrity]

/-! ### Helper lemmas: rows -/

theorem head?_filter {α : Type} (p : α → Bool) (l : List α) :
    (l.filter p).head? = l.find? p := by
  induction l with
  | nil => rfl
  | cons a t ih => by_cases h : p a <;> simp [List.filter, List.find?, h, ih]

theorem matchRow_update (tname nm js : String) (r : MRow) :
    matchRow tname nm { r with metadata_json := js } = matchRow tname nm r := rfl

theorem map_update_of_not_found {rows : List MRow} {tname nm : String} (js : String)
    (h : rows.find? (matchRow tname nm) = none) :
    rows.map (fun r => if matchRow tname nm r then { r with metadata_json := js } else r)
      = rows := by
  have hall := List.find?_eq_none.mp h
  rw [List.map_congr_left (g := id) ?_, List.map_id]
  intro r hr
  simp [hall r hr]

theorem find?_map_update (rows : List MRow) (tname nm js : String) :
    (rows.map (fun r =>
        if matchRow tname nm r then { r with metadata_json := js } else r)).find?
      (matchRow tname nm)
    = (rows.find? (matchRow tname nm)).map (fun r => { r with metadata_json := js }) := by
  induction rows with
  | nil => rfl
  | cons a t ih =>
    cases h : matchRow tname nm a with
    | true => simp [List.find?, h, matchRow_update]
    | false => simp [List.find?, h, matchRow_update, ih]

/-! ### Helper lemmas: `CollectionMetadata` operations -/

theorem get_metadata_hit {cm : CollectionMetadata} {db : DB} {nm m : String}
    (h : cacheLookup cm.cache nm = some (some m)) :
    cm.get_metadata db nm = (cm, db, .ok m) := by
  simp only [CollectionMetadata.get_metadata, h, CollectionMetadata._raise_if_none]

theorem get_metadata_hit_none {cm : CollectionMetadata} {db : DB} {nm : String}
    (h : cacheLookup cm.cache nm = some none) :
    cm.get_metadata db nm = (cm, db, .error (.collectionMissing nm)) := by
  simp only [CollectionMetadata.get_metadata, h, CollectionMetadata._raise_if_none]

theorem fetchone_select {db : DB} {tname nm : String} :
    fetchone (.rows ((db.mrows.filter (matchRow tname nm)).map
      (fun r => { name := r.name, metadata_json := r.metadata_json }))) =
    (db.mrows.find? (matchRow tname nm)).map
      (fun r => { name := r.name, metadata_json := r.metadata_json }) := by
  simp only [fetchone, List.head?_map, head?_filter]

theorem get_metadata_miss_found {cm : CollectionMetadata} {db : DB} {nm js : String}
    (hc : cacheLookup cm.cache nm = none)
    (ht : cm.collection_metadata ∈ db.tables)
    (hr : db.rowLookup cm.collection_metadata nm = some js) :
    cm.get_metadata db nm =
      ({ cm with cache := cacheSet cm.cache nm (some js) }, db, .ok js) := by
  obtain ⟨r0, hfind, hjs⟩ := Option.map_eq_some'.mp hr
  simp only [CollectionMetadata.get_metadata, hc, execute_query_select_ok ht,
    CollectionMetadata._add_row_to_metadata, fetchone_select, hfind, Option.map_some',
    json_loads, hjs, CollectionMetadata._update_metadata,
    CollectionMetadata._raise_if_none]

theorem get_metadata_miss_absent {cm : CollectionMetadata} {db : DB} {nm : String}
    (hc : cacheLookup cm.cache nm = none)
    (ht : cm.collection_metadata ∈ db.tables)
    (hr : db.rowLookup cm.collection_metadata nm = none) :
    cm.get_metadata db nm =
      ({ cm with cache := cacheSet cm.cache nm none }, db,
       .error (.collectionMissing nm)) := by
  have hfind : db.mrows.find? (matchRow cm.collection_metadata nm) = none :=
    Option.map_eq_none'.mp hr
  simp only [CollectionMetadata.get_metadata, hc, execute_query_select_ok ht,
    CollectionMetadata._add_row_to_metadata, fetchone_select, hfind, Option.map_none',
    CollectionMetadata._update_metadata, CollectionMetadata._raise_if_none]

theorem get_metadata_table_missing {cm : CollectionMetadata} {db : DB} {nm : String}
    (hc : cacheLookup cm.cache nm = none)
    (ht : cm.collection_metadata ∉ db.tables) :
    cm.get_metadata db nm =
      (cm, db, .error (.tableMissing ("no such table: " ++ cm.collection_metadata))) := by
  simp only [CollectionMetadata.get_metadata, hc, execute_query_select_missing nm ht]

theorem cacheSet_erase (c : Cache) (k : String) (v : Option String) :
    cacheSet (cacheErase c k) k v = cacheSet c k v := by
  unfold cacheSet
  rw [cacheErase_idem]

theorem collection_metadata_cache_irrel (cm : CollectionMetadata) (c : Cache) :
    ({ cm with cache := c } : CollectionMetadata).collection_metadata =
      cm.collection_metadata := rfl

theorem set_metadata_ok {cm : CollectionMetadata} {db : DB} (nm md : String)
    (ht : cm.collection_metadata ∈ db.tables) :
    cm.set_metadata db nm md =
      ({ cm with cache := cacheSet cm.cache nm (some md) },
       { db with mrows := db.mrows.map (fun r =>
           if matchRow cm.collection_metadata nm r then { r with metadata_json := md }
           else r) },
       .ok ()) := by
  simp only [CollectionMetadata.set_metadata, json_dumps, collection_metadata_cache_irrel,
    execute_query_update_ok nm md ht, CollectionMetadata._update_metadata, cacheSet_erase]

theorem collection_exists_hit_some {cm : CollectionMetadata} {db : DB} {nm m : String}
    (h : cacheLookup cm.cache nm = some (some m)) :
    cm.collection_exists db nm = (cm, db, .ok true) := by
  simp only [CollectionMetadata.collection_exists, get_metadata_hit h]

theorem collection_exists_miss_absent {cm : CollectionMetadata} {db : DB} {nm : String}
    (hc : cacheLookup cm.cache nm = none)
    (ht : cm.collection_metadata ∈ db.tables)
    (hr : db.rowLookup cm.collection_metadata nm = none) :
    cm.collection_exists db nm =
      ({ cm with cache := cacheSet cm.cache nm none }, db, .ok false) := by
  simp only [CollectionMetadata.collection_exists, get_metadata_miss_absent hc ht hr]

theorem create_collection_hit_some {cm : CollectionMetadata} {db : DB} {nm m : String}
    (metadata : Option String) (h : cacheLookup cm.cache nm = some (some m)) :
    cm.create_collection db nm metadata = (cm, db, .ok ()) := by
  simp only [CollectionMetadata.create_collection, collection_exists_hit_some h,
    CollectionMetadata._create_collection, if_pos]

theorem create_collection_fresh {cm : CollectionMetadata} {db : DB} {nm : String}
    (metadata : Option String)
    (hc : cacheLookup cm.cache nm = none)
    (ht : cm.collection_metadata ∈ db.tables)
    (hr : db.rowLookup cm.collection_metadata nm = none) :
    cm.create_collection db nm metadata =
      ({ cm with cache := cacheSet cm.cache nm (some (metadata.getD empty_payload)) },
       { db with mrows := db.mrows ++
           [⟨cm.collection_metadata, nm, metadata.getD empty_payload⟩] },
       .ok ()) := by
  have hfind : db.mrows.find? (matchRow cm.collection_metadata nm) = none :=
    Option.map_eq_none'.mp hr
  simp only [CollectionMetadata.create_collection, collection_exists_miss_absent hc ht hr,
    CollectionMetadata._create_collection, Bool.false_eq_true, if_false, json_dumps,
    collection_metadata_cache_irrel, execute_query_insert_ok _ ht hfind,
    CollectionMetadata._update_metadata, cacheSet_set_self]

/-! ### Helper lemmas: `TableCollection.create_tables` -/

theorem create_tables_fresh {tc : TableCollection} {cm : CollectionMetadata} {db : DB}
    (metadata : Option String)
    (hb : ∀ t ∈ tc.sorted_tables, t ∉ db.broken)
    (htn : ∀ t ∈ tc.sorted_tables, t ∉ db.tables)
    (hnd : tc.sorted_tables.Nodup)
    (hc : cacheLookup cm.cache tc.name = none)
    (hmt : cm.collection_metadata ∈ db.tables)
    (hr : db.rowLookup cm.collection_metadata tc.name = none) :
    tc.create_tables cm db metadata =
      ({ cm with cache := cacheSet cm.cache tc.name (some (metadata.getD empty_payload)) },
       { tables := db.tables ++ tc.sorted_tables,
         mrows := db.mrows ++
           [⟨cm.collection_metadata, tc.name, metadata.getD empty_payload⟩],
         broken := db.broken },
       .ok ()) := by
  simp only [TableCollection.create_tables,
    _create_tables_all_new tc.sorted_tables db hb htn hnd]
  have := @create_collection_fresh cm
    { db with tables := db.tables ++ tc.sorted_tables } tc.name metadata
    hc (List.mem_append_left _ hmt) hr
  simpa using this

theorem create_tables_again {tc : TableCollection} {cm : CollectionMetadata} {db : DB}
    {m : String} (metadata : Option String)
    (hb : ∀ t ∈ tc.sorted_tables, t ∉ db.broken)
    (ht : ∀ t ∈ tc.sorted_tables, t ∈ db.tables)
    (hcache : cacheLookup cm.cache tc.name = some (some m)) :
    tc.create_tables cm db metadata = (cm, db, .ok ()) := by
  simp only [TableCollection.create_tables, _create_tables_all_exist tc.sorted_tables db hb ht,
    create_collection_hit_some metadata hcache]

/-! ### Helper lemmas: `make_table` instantiation -/

theorem colIds_eq_argIds (t : Table) : t.colIds = argIds t.targs := rfl

theorem copy_args_struct : ∀ (args : List Arg) (c1 c2 : Nat),
    ((make_table.copy_args args c1).1).map Arg.struct =
      ((make_table.copy_args args c2).1).map Arg.struct
| [], _, _ => rfl
| .column c :: rest, c1, c2 => by
  have ih := copy_args_struct rest (c1 + 1) (c2 + 1)
  simp only [make_table.copy_args, List.map_cons]
  rw [ih]
  simp [Arg.struct, Column.copy]
| .other v :: rest, c1, c2 => by
  have ih := copy_args_struct rest c1 c2
  simp only [make_table.copy_args, List.map_cons]
  rw [ih]

theorem copy_args_counter_le : ∀ (args : List Arg) (c : Nat),
    c ≤ (make_table.copy_args args c).2
| [], _ => Nat.le_refl _
| .column _ :: rest, c =>
  Nat.le_trans (Nat.le_succ c) (copy_args_counter_le rest (c + 1))
| .other _ :: rest, c => copy_args_counter_le rest c

theorem copy_args_ids_range : ∀ (args : List Arg) (c : Nat),
    ∀ i ∈ argIds (make_table.copy_args args c).1,
      c ≤ i ∧ i < (make_table.copy_args args c).2
| [], _, i, hi => absurd hi (by simp [make_table.copy_args, argIds])
| .column cc :: rest, c, i, hi => by
  simp only [make_table.copy_args, argIds, List.filterMap_cons] at hi
  rcases List.mem_cons.mp hi with rfl | hi'
  · exact ⟨Nat.le_refl _,
      Nat.lt_of_lt_of_le (Nat.lt_succ_self _) (copy_args_counter_le rest _)⟩
  · have h := copy_args_ids_range rest (c + 1) i hi'
    exact ⟨Nat.le_trans (Nat.le_succ c) h.1, h.2⟩
| .other v :: rest, c, i, hi => by
  simp only [make_table.copy_args, argIds, List.filterMap_cons] at hi
  exact copy_args_ids_range rest c i hi

/-! ### Claim theorems -/

/-- C9. Instantiating one `make_table` spec with the same name always
yields a structurally identical physical table (same name, same columns
in the same order with the same attributes, same table options),
whatever the state of the object allocator; and two successive
instantiations (under any two names) yield tables that share no column
objects, because every `Column` argument is copied afresh per
instantiation. -/
theorem make_table_struct_identical_and_no_shared_columns :
    (∀ (mt : make_table) (nm : String) (c1 c2 : Nat),
      ((mt.make_table nm c1).1).struct = ((mt.make_table nm c2).1).struct) ∧
    (∀ (mt : make_table) (nm1 nm2 : String) (c0 : Nat),
      ∀ i ∈ ((mt.make_table nm1 c0).1).colIds,
        i ∉ ((mt.make_table nm2 (mt.make_table nm1 c0).2).1).colIds) := by
  constructor
  · intro mt nm c1 c2
    simp only [make_table.make_table, Table.struct]
    rw [copy_args_struct mt.args c1 c2]
  · intro mt nm1 nm2 c0 i hi hi2
    simp only [make_table.make_table, colIds_eq_argIds] at hi hi2
    have h1 := copy_args_ids_range mt.args c0 i hi
    have h2 := copy_args_ids_range mt.args (make_table.copy_args mt.args c0).2 i hi2
    exact absurd h2.1 (by omega)

/-- C10. `collection_type()` returns the `COLLECTION_TYPE` class attribute
when it is set and the class's own name otherwise; a constructor call
that receives no metadata store auto-creates a `CollectionMetadata`
scoped to exactly this value with a fresh cache, so instances of one
collection type constructed this way share the same physical metadata
table name regardless of their instance names. -/
theorem collection_type_and_default_metadata_store :
    (∀ (cls : TCClass) (t : String), cls.COLLECTION_TYPE = some t →
      TableCollection.collection_type cls = t) ∧
    (∀ cls : TCClass, cls.COLLECTION_TYPE = none →
      TableCollection.collection_type cls = cls.className) ∧
    (∀ (cls : TCClass) (nm : String),
      (TableCollection.init cls nm none).2 =
        { name := TableCollection.collection_type cls, cache := [] }) ∧
    (∀ (cls : TCClass) (nm1 nm2 : String),
      ((TableCollection.init cls nm1 none).2).collection_metadata =
        ((TableCollection.init cls nm2 none).2).collection_metadata) := by
  refine ⟨?_, ?_, ?_, ?_⟩
  · intro cls t h
    simp [TableCollection.collection_type, h]
  · intro cls h
    simp [TableCollection.collection_type, h]
  · intro cls nm
    rfl
  · intro cls nm1 nm2
    rfl

/-- C10 witness: concrete check of both branches of `collection_type` and
of the auto-created store. -/
theorem collection_type_and_default_metadata_store_witness :
    (TCClass.mk "Jobs" (some "Work") ["items"]).COLLECTION_TYPE = some "Work" ∧
    TableCollection.collection_type (TCClass.mk "Jobs" (some "Work") ["items"]) = "Work" ∧
    (TCClass.mk "Jobs" none []).COLLECTION_TYPE = none ∧
    TableCollection.collection_type (TCClass.mk "Jobs" none []) = "Jobs" ∧
    (TableCollection.init (TCClass.mk "Jobs" none []) "a" none).2 =
      { name := "Jobs", cache := [] } ∧
    ((TableCollection.init (TCClass.mk "Jobs" none []) "a" none).2).collection_metadata =
      ((TableCollection.init (TCClass.mk "Jobs" none []) "b" none).2).collection_metadata := by
  refine ⟨rfl,
    collection_type_and_default_metadata_store.1 _ _ rfl,
    rfl,
    collection_type_and_default_metadata_store.2.1 _ rfl,
    ?_, ?_⟩
  · have h := collection_type_and_default_metadata_store.2.2.1
      (TCClass.mk "Jobs" none []) "a"
    simpa using h
  · exact collection_type_and_default_metadata_store.2.2.2
      (TCClass.mk "Jobs" none []) "a" "b"

/-- C1 counterexample. The naming join is NOT injective over all segment
tuples: the distinct triples `("A_B", "c", "items")` and
`("A", "B_c", "items")` produce the same physical table name
`"A_B_c_items"`, because the separator also occurs inside segments.
The two-segment `CollectionMetadata` naming collides likewise:
`("a_b", "c")` and `("a", "b_c")` both give `"a_b_c"`. -/
theorem get_table_name_not_injective :
    (TableCollection.get_table_name ⟨⟨"A_B", none, []⟩, "c"⟩ "items" =
      TableCollection.get_table_name ⟨⟨"A", none, []⟩, "B_c"⟩ "items") ∧
    (TableCollection.collection_type (TCClass.mk "A_B" none []), "c", "items") ≠
      (TableCollection.collection_type (TCClass.mk "A" none []), "B_c", "items") ∧
    (CollectionMetadata.get_table_name ⟨"c", []⟩ "a_b" =
      CollectionMetadata.get_table_name ⟨"b_c", []⟩ "a") ∧
    (("a_b" : String), ("c" : String)) ≠ (("a" : String), ("b_c" : String)) := by
  refine ⟨?_, by decide, ?_, by decide⟩ <;> decide

/-- C1 amended. The physical-table naming functions are injective over
naming segments that do not contain the separator character `'_'`: for
underscore-free segments, two `(collectionType, instanceName, role)`
triples mapped by `TableCollection.get_table_name` to the same physical
name are equal, and likewise two `(role, ownerName)` pairs mapped by
`CollectionMetadata.get_table_name`. (As stated over arbitrary segments
the claim is false, see the counterexample.) -/
theorem get_table_name_injective_underscore_free :
    (∀ (tc1 tc2 : TableCollection) (r1 r2 : String),
      '_' ∉ (TableCollection.collection_type tc1.cls).data →
      '_' ∉ (TableCollection.collection_type tc2.cls).data →
      '_' ∉ tc1.name.data → '_' ∉ tc2.name.data →
      tc1.get_table_name r1 = tc2.get_table_name r2 →
      TableCollection.collection_type tc1.cls = TableCollection.collection_type tc2.cls ∧
        tc1.name = tc2.name ∧ r1 = r2) ∧
    (∀ (cm1 cm2 : CollectionMetadata) (r1 r2 : String),
      '_' ∉ r1.data → '_' ∉ r2.data →
      cm1.get_table_name r1 = cm2.get_table_name r2 →
      r1 = r2 ∧ cm1.name = cm2.name) := by
  constructor
  · intro tc1 tc2 r1 r2 h1 h2 h3 h4 heq
    exact underscore_join3_inj h1 h2 h3 h4 heq
  · intro cm1 cm2 r1 r2 h1 h2 heq
    exact underscore_join2_inj h1 h2 heq

/-- C1 witness: the amended injectivity applied at a concrete instance,
collections of type `"Jobs"` named `"a"` with role `"items"`, all
hypotheses discharged concretely. -/
theorem get_table_name_injective_underscore_free_witness :
    ('_' ∉ (TableCollection.collection_type (TCClass.mk "Jobs" none [])).data ∧
      '_' ∉ ("a" : String).data ∧ '_' ∉ ("items" : String).data) ∧
    (TableCollection.get_table_name ⟨⟨"Jobs", none, []⟩, "a"⟩ "items" =
      TableCollection.get_table_name ⟨⟨"Jobs", none, []⟩, "a"⟩ "items") ∧
    (TableCollection.collection_type (TCClass.mk "Jobs" none []) =
        TableCollection.collection_type (TCClass.mk "Jobs" none []) ∧
      ("a" : String) = "a" ∧ ("items" : String) = "items") ∧
    (("items" : String) = "items" ∧ ("Jobs" : String) = "Jobs") :=
  ⟨⟨by decide, by decide, by decide⟩, rfl,
   get_table_name_injective_underscore_free.1
     ⟨⟨"Jobs", none, []⟩, "a"⟩ ⟨⟨"Jobs", none, []⟩, "a"⟩ "items" "items"
     (by decide) (by decide) (by decide) (by decide) rfl,
   get_table_name_injective_underscore_free.2
     ⟨"Jobs", []⟩ ⟨"Jobs", []⟩ "items" "items" (by decide) (by decide) rfl⟩

/-- C4. `set_metadata(name, payload)` on an unregistered name never checks
that a row exists: it completes successfully (no `CollectionMissingError`),
the UPDATE touches zero rows so the database state is unchanged, and the
cache is nonetheless populated with the payload that no row persists. -/
theorem set_metadata_unregistered_silent {cm : CollectionMetadata} {db : DB}
    (nm md : String)
    (ht : cm.collection_metadata ∈ db.tables)
    (hr : db.rowLookup cm.collection_metadata nm = none) :
    cm.set_metadata db nm md =
      ({ cm with cache := cacheSet cm.cache nm (some md) }, db, .ok ()) ∧
    cacheLookup (cacheSet cm.cache nm (some md)) nm = some (some md) := by
  refine ⟨?_, cacheLookup_set_self ..⟩
  rw [set_metadata_ok nm md ht,
    map_update_of_not_found md (Option.map_eq_none'.mp hr)]

/-- C4 witness: a store over an existing metadata table with no row for
`"ghost"`; `set_metadata` succeeds, leaves the database untouched, and
caches the unpersisted payload. -/
theorem set_metadata_unregistered_silent_witness :
    (CollectionMetadata.collection_metadata ⟨"Orders", []⟩ ∈
        (⟨["collection_metadata_Orders"], [], []⟩ : DB).tables ∧
      DB.rowLookup ⟨["collection_metadata_Orders"], [], []⟩
        (CollectionMetadata.collection_metadata ⟨"Orders", []⟩) "ghost" = none) ∧
    (CollectionMetadata.set_metadata ⟨"Orders", []⟩
        ⟨["collection_metadata_Orders"], [], []⟩ "ghost" "XX" =
      (⟨"Orders", [("ghost", some "XX")]⟩, ⟨["collection_metadata_Orders"], [], []⟩,
        .ok ()) ∧
      cacheLookup (cacheSet [] "ghost" (some "XX")) "ghost" = some (some "XX")) :=
  ⟨⟨by decide, by decide⟩,
   set_metadata_unregistered_silent "ghost" "XX" (by decide) (by decide)⟩

theorem conn_execute_error_shape (db : DB) (q : Stmt) {db' : DB} {e : Err}
    (h : conn_execute db q = (db', .error e)) :
    (∃ m, e = .operational m) ∨ (∃ m, e = .integrity m) := by
  rcases q with t | ⟨t, nm⟩ | ⟨t, nm, js⟩ | ⟨t, nm, js⟩ <;>
    simp only [conn_execute] at h <;>
    split_ifs at h <;>
    simp_all <;>
    first
      | exact .inl ⟨_, h.2.symm⟩
      | exact .inr ⟨_, h.2.symm⟩

/-- C5. `execute_query` raises `TableMissingError` carrying the backend's
"no such table" report exactly when the backend failure is a
"no such table" `OperationalError` for the query's target table; every
other backend failure (a constraint violation on an existing table, or
any operational error whose message is not a "no such table" report)
propagates to the caller unchanged. -/
theorem execute_query_error_classification :
    (∀ (db : DB) (tname nm : String), tname ∉ db.tables →
      execute_query db (.selectByName tname nm) =
        (db, .error (.tableMissing ("no such table: " ++ tname)))) ∧
    (∀ (db : DB) (q : Stmt) (db' : DB) (m : String),
      execute_query db q = (db', .error (.tableMissing m)) →
      ∃ msg, conn_execute db q = (db', .error (.operational msg)) ∧
        strContains msg "no such table: " = true ∧ m = msg) ∧
    (∀ (db : DB) (tname nm js : String), tname ∈ db.tables →
      (db.mrows.find? (matchRow tname nm)).isSome = true →
      execute_query db (.insertRow tname nm js) =
        (db, .error (.integrity ("UNIQUE constraint failed: " ++ tname ++ ".name")))) ∧
    (∀ (db : DB) (q : Stmt) (db' : DB) (msg : String),
      conn_execute db q = (db', .error (.integrity msg)) →
      execute_query db q = (db', .error (.integrity msg))) ∧
    (∀ (db : DB) (q : Stmt) (db' : DB) (msg : String),
      conn_execute db q = (db', .error (.operational msg)) →
      strContains msg "no such table: " = false →
      execute_query db q = (db', .error (.operational msg))) := by
  refine ⟨fun db tname nm ht => execute_query_select_missing nm ht, ?_,
    fun db tname nm js ht hf => execute_query_insert_dup js ht hf, ?_, ?_⟩
  · intro db q db' m h
    rcases heq : conn_execute db q with ⟨db0, r⟩
    simp only [execute_query, heq] at h
    cases r with
    | ok v => simp at h
    | error e =>
      simp only [Prod.mk.injEq, Except.error.injEq] at h
      obtain ⟨rfl, h2⟩ := h
      cases e with
      | operational msg =>
        cases hc : strContains msg "no such table: " with
        | true =>
          rw [table_missing_errback_nst hc] at h2
          have hmm : msg = m := by injection h2
          exact ⟨msg, rfl, hc, hmm.symm⟩
        | false =>
          rw [table_missing_errback_op hc] at h2
          exact absurd h2 (by simp)
      | integrity msg => exact absurd h2 (by simp [table_missing_errback])
      | tableMissing msg =>
        rcases conn_execute_error_shape db q heq with ⟨m', hm⟩ | ⟨m', hm⟩ <;> simp at hm
      | collectionMissing cn =>
        rcases conn_execute_error_shape db q heq with ⟨m', hm⟩ | ⟨m', hm⟩ <;> simp at hm
  · intro db q db' msg h
    simp only [execute_query, h, table_missing_errback_integrity]
  · intro db q db' msg h hc
    simp only [execute_query, h, table_missing_errback_op hc]

/-- C5 witness: the classification at concrete inputs: a SELECT against a
missing table is reclassified as `TableMissingError`; a duplicate INSERT
into an existing table keeps its `IntegrityError`; an operational failure
whose message is not a "no such table" report passes through unchanged. -/
theorem execute_query_error_classification_witness :
    (("T" : String) ∉ (⟨[], [], []⟩ : DB).tables ∧
      execute_query ⟨[], [], []⟩ (.selectByName "T" "x") =
        (⟨[], [], []⟩, .error (.tableMissing ("no such table: " ++ "T")))) ∧
    (∃ msg, conn_execute (⟨[], [], []⟩ : DB) (.selectByName "T" "x") =
        (⟨[], [], []⟩, .error (.operational msg)) ∧
      strContains msg "no such table: " = true ∧ "no such table: T" = msg) ∧
    (execute_query ⟨["T"], [⟨"T", "x", "1"⟩], []⟩ (.insertRow "T" "x" "2") =
      (⟨["T"], [⟨"T", "x", "1"⟩], []⟩,
        .error (.integrity ("UNIQUE constraint failed: " ++ "T" ++ ".name")))) ∧
    (execute_query ⟨["T"], [], ["T"]⟩ (.createTable "T") =
      (⟨["T"], [], ["T"]⟩, .error (.operational "database is locked"))) := by
  refine ⟨⟨by decide, execute_query_error_classification.1 _ "T" "x" (by decide)⟩,
    ?_, ?_, ?_⟩
  · have h := execute_query_error_classification.2.1 (⟨[], [], []⟩ : DB)
      (.selectByName "T" "x") ⟨[], [], []⟩ "no such table: T" rfl
    simpa using h
  · exact execute_query_error_classification.2.2.1 _ "T" "x" "2" (by decide) (by decide)
  · exact execute_query_error_classification.2.2.2.2 _ (.createTable "T") _
      "database is locked" rfl (by decide)

/-- C6. Within one `_create_tables` run, the only locally absorbed failure
for a table is an `OperationalError` whose message matches one of the two
known "already exists" templates instantiated with that table's name
(then creation continues with the next table); a non-operational failure
is never absorbed, and a non-matching operational failure aborts the
whole run, surfacing unchanged with the remaining tables unattempted. -/
theorem create_tables_absorbs_only_already_exists :
    (∀ tname msg : String,
      table_exists_errback tname (.operational msg) = none ↔
        (strContains msg ("table " ++ tname ++ " already exists") = true ∨
         strContains msg ("table \"" ++ tname ++ "\" already exists") = true)) ∧
    (∀ tname msg : String,
      table_exists_errback tname (.integrity msg) = some (.integrity msg)) ∧
    (∀ (db : DB) (t : String) (rest : List String), t ∉ db.broken → t ∈ db.tables →
      _create_tables db (t :: rest) = _create_tables db rest) ∧
    (∀ (db : DB) (t : String) (rest : List String), t ∈ db.broken →
      _create_tables db (t :: rest) = (db, .error (.operational "database is locked"))) := by
  refine ⟨?_, fun tname msg => rfl, ?_, ?_⟩
  · intro tname msg
    cases h1 : strContains msg ("table " ++ tname ++ " already exists") <;>
      cases h2 : strContains msg ("table \"" ++ tname ++ "\" already exists") <;>
      simp [table_exists_errback, h1, h2]
  · intro db t rest hb ht
    simp only [_create_tables, _create_table_exists hb ht]
  · intro db t rest hb
    simp only [_create_tables, _create_table_broken hb]

/-- C6 witness: the matching "already exists" failure is swallowed and
creation continues; a "database is locked" failure on the second table
aborts the run with the third table never attempted. -/
theorem create_tables_absorbs_only_already_exists_witness :
    (table_exists_errback "T" (.operational ("table T already exists")) = none ↔
      (strContains "table T already exists" ("table " ++ "T" ++ " already exists") = true ∨
       strContains "table T already exists" ("table \"" ++ "T" ++ "\" already exists") = true)) ∧
    table_exists_errback "T" (.integrity "disk error") = some (.integrity "disk error") ∧
    _create_tables ⟨["T0"], [], []⟩ ["T0", "T1"] = _create_tables ⟨["T0"], [], []⟩ ["T1"] ∧
    _create_tables ⟨["T0"], [], ["T1"]⟩ ["T1", "T2"] =
      (⟨["T0"], [], ["T1"]⟩, .error (.operational "database is locked")) :=
  ⟨create_tables_absorbs_only_already_exists.1 "T" "table T already exists",
   create_tables_absorbs_only_already_exists.2.1 "T" "disk error",
   create_tables_absorbs_only_already_exists.2.2.1 _ "T0" ["T1"] (by decide) (by decide),
   create_tables_absorbs_only_already_exists.2.2.2 _ "T1" ["T2"] (by decide)⟩

/-- C2 counterexample. A failed `get_metadata` DOES leave a negative cache
entry: with the metadata table present and no row for `"shop1"`, the
first call raises `CollectionMissingError` and stores `("shop1", none)`
in the cache; after a row for `"shop1"` is inserted into the backing
table by another writer, the very next `get_metadata` call on the same
store instance answers from the cache — it raises
`CollectionMissingError` again, leaves the database untouched and never
returns the new row's payload. -/
theorem get_metadata_negative_cache_counterexample :
    CollectionMetadata.get_metadata ⟨"Orders", []⟩
        ⟨["collection_metadata_Orders"], [], []⟩ "shop1" =
      (⟨"Orders", [("shop1", none)]⟩, ⟨["collection_metadata_Orders"], [], []⟩,
        .error (.collectionMissing "shop1")) ∧
    DB.rowLookup ⟨["collection_metadata_Orders"],
        [⟨"collection_metadata_Orders", "shop1", "USD"⟩], []⟩
      "collection_metadata_Orders" "shop1" = some "USD" ∧
    CollectionMetadata.get_metadata ⟨"Orders", [("shop1", none)]⟩
        ⟨["collection_metadata_Orders"],
          [⟨"collection_metadata_Orders", "shop1", "USD"⟩], []⟩ "shop1" =
      (⟨"Orders", [("shop1", none)]⟩,
       ⟨["collection_metadata_Orders"],
         [⟨"collection_metadata_Orders", "shop1", "USD"⟩], []⟩,
       .error (.collectionMissing "shop1")) :=
  ⟨rfl, rfl, rfl⟩

/-- C2 amended. For a collection name with no row in the metadata table,
`get_metadata(name)` raises `CollectionMissingError` — but it DOES leave
a negative cache entry (`name ↦ None`): every subsequent
`get_metadata(name)` on the same store instance is answered from the
cache, raising `CollectionMissingError` without querying the table, so a
row inserted later by another writer stays invisible to this instance
until one of its own writes (`set_metadata` / `create_collection`)
replaces the cached absence. -/
theorem get_metadata_caches_absence {cm : CollectionMetadata} {db : DB} {nm : String}
    (hc : cacheLookup cm.cache nm = none)
    (ht : cm.collection_metadata ∈ db.tables)
    (hr : db.rowLookup cm.collection_metadata nm = none) :
    cm.get_metadata db nm =
      ({ cm with cache := cacheSet cm.cache nm none }, db,
       .error (.collectionMissing nm)) ∧
    cacheLookup (cacheSet cm.cache nm none) nm = some none ∧
    ∀ db2 : DB,
      CollectionMetadata.get_metadata { cm with cache := cacheSet cm.cache nm none }
          db2 nm =
        ({ cm with cache := cacheSet cm.cache nm none }, db2,
         .error (.collectionMissing nm)) :=
  ⟨get_metadata_miss_absent hc ht hr,
   cacheLookup_set_self ..,
   fun db2 => get_metadata_hit_none (by rw [cacheLookup_set_self])⟩

/-- C2 witness: the amended behaviour at a concrete store, including a
second database state in which the row has meanwhile appeared. -/
theorem get_metadata_caches_absence_witness :
    (cacheLookup ([] : Cache) "shop1" = none ∧
      CollectionMetadata.collection_metadata ⟨"Orders", []⟩ ∈
        (⟨["collection_metadata_Orders"], [], []⟩ : DB).tables ∧
      DB.rowLookup ⟨["collection_metadata_Orders"], [], []⟩
        (CollectionMetadata.collection_metadata ⟨"Orders", []⟩) "shop1" = none) ∧
    (CollectionMetadata.get_metadata ⟨"Orders", []⟩
        ⟨["collection_metadata_Orders"], [], []⟩ "shop1" =
      (⟨"Orders", cacheSet [] "shop1" none⟩, ⟨["collection_metadata_Orders"], [], []⟩,
        .error (.collectionMissing "shop1")) ∧
      cacheLookup (cacheSet [] "shop1" none) "shop1" = some none ∧
      ∀ db2 : DB,
        CollectionMetadata.get_metadata ⟨"Orders", cacheSet [] "shop1" none⟩ db2 "shop1" =
          (⟨"Orders", cacheSet [] "shop1" none⟩, db2,
            .error (.collectionMissing "shop1"))) :=
  ⟨⟨rfl, by decide, by decide⟩,
   get_metadata_caches_absence (by decide) (by decide) (by decide)⟩

/-- C3. For a fresh collection (its physical tables absent, no metadata
row, nothing cached, the type's metadata table itself present), the first
`create_tables` call succeeds, and calling `create_tables` a second time
in sequence does not fail and leaves the store, database and cache state
exactly as after the first call alone. -/
theorem create_tables_idempotent {tc : TableCollection} {cm : CollectionMetadata}
    {db : DB} (metadata : Option String)
    (hb : ∀ t ∈ tc.sorted_tables, t ∉ db.broken)
    (htn : ∀ t ∈ tc.sorted_tables, t ∉ db.tables)
    (hnd : tc.sorted_tables.Nodup)
    (hc : cacheLookup cm.cache tc.name = none)
    (hmt : cm.collection_metadata ∈ db.tables)
    (hr : db.rowLookup cm.collection_metadata tc.name = none) :
    (tc.create_tables cm db metadata).2.2 = .ok () ∧
    tc.create_tables (tc.create_tables cm db metadata).1
        (tc.create_tables cm db metadata).2.1 metadata =
      ((tc.create_tables cm db metadata).1, (tc.create_tables cm db metadata).2.1,
       .ok ()) := by
  have h1 := create_tables_fresh metadata hb htn hnd hc hmt hr
  rw [h1]
  refine ⟨rfl, ?_⟩
  exact create_tables_again metadata
    (fun t htm => hb t htm)
    (fun t htm => List.mem_append_right _ htm)
    (by rw [cacheLookup_set_self])

/-- C3 witness: a concrete fresh collection `("Orders", "shop1")` with one
declared table role `"items"` over a database holding only the type's
metadata table. -/
theorem create_tables_idempotent_witness :
    ((∀ t ∈ TableCollection.sorted_tables ⟨⟨"Orders", none, ["items"]⟩, "shop1"⟩,
        t ∉ (⟨["collection_metadata_Orders"], [], []⟩ : DB).broken) ∧
      (∀ t ∈ TableCollection.sorted_tables ⟨⟨"Orders", none, ["items"]⟩, "shop1"⟩,
        t ∉ (⟨["collection_metadata_Orders"], [], []⟩ : DB).tables) ∧
      (TableCollection.sorted_tables ⟨⟨"Orders", none, ["items"]⟩, "shop1"⟩).Nodup ∧
      cacheLookup ([] : Cache) "shop1" = none ∧
      CollectionMetadata.collection_metadata ⟨"Orders", []⟩ ∈
        (⟨["collection_metadata_Orders"], [], []⟩ : DB).tables ∧
      DB.rowLookup ⟨["collection_metadata_Orders"], [], []⟩
        (CollectionMetadata.collection_metadata ⟨"Orders", []⟩) "shop1" = none) ∧
    ((TableCollection.create_tables ⟨⟨"Orders", none, ["items"]⟩, "shop1"⟩ ⟨"Orders", []⟩
        ⟨["collection_metadata_Orders"], [], []⟩ (some "USD")).2.2 = .ok () ∧
      TableCollection.create_tables ⟨⟨"Orders", none, ["items"]⟩, "shop1"⟩
          (TableCollection.create_tables ⟨⟨"Orders", none, ["items"]⟩, "shop1"⟩
            ⟨"Orders", []⟩ ⟨["collection_metadata_Orders"], [], []⟩ (some "USD")).1
          (TableCollection.create_tables ⟨⟨"Orders", none, ["items"]⟩, "shop1"⟩
            ⟨"Orders", []⟩ ⟨["collection_metadata_Orders"], [], []⟩ (some "USD")).2.1
          (some "USD") =
        ((TableCollection.create_tables ⟨⟨"Orders", none, ["items"]⟩, "shop1"⟩
            ⟨"Orders", []⟩ ⟨["collection_metadata_Orders"], [], []⟩ (some "USD")).1,
         (TableCollection.create_tables ⟨⟨"Orders", none, ["items"]⟩, "shop1"⟩
            ⟨"Orders", []⟩ ⟨["collection_metadata_Orders"], [], []⟩ (some "USD")).2.1,
         .ok ())) :=
  ⟨⟨by decide, by decide, by decide, rfl, by decide, by decide⟩,
   create_tables_idempotent (some "USD") (by decide) (by decide) (by decide)
     (by decide) (by decide) (by decide)⟩

theorem rowLookup_after_update {db : DB} {T nm js0 : String} (js : String)
    (hr : db.rowLookup T nm = some js0) :
    DB.rowLookup { db with mrows := db.mrows.map (fun r =>
        if matchRow T nm r then { r with metadata_json := js } else r) } T nm
      = some js := by
  obtain ⟨r0, hf, hj⟩ := Option.map_eq_some'.mp hr
  show (((db.mrows.map (fun r =>
      if matchRow T nm r then { r with metadata_json := js } else r)).find?
        (matchRow T nm)).map (·.metadata_json)) = some js
  rw [find?_map_update, hf]
  rfl

theorem collection_metadata_eq_of_name {a b : CollectionMetadata} (h : a.name = b.name) :
    a.collection_metadata = b.collection_metadata := by
  simp [CollectionMetadata.collection_metadata, CollectionMetadata.get_table_name, h]

/-- Outcome of a successful `set_metadata` on a store whose metadata table
exists and already holds a row for `nm`, stated through projections so
that downstream reasoning does not depend on the concrete state shape. -/
theorem set_metadata_outcome {cm : CollectionMetadata} {db : DB} (nm P : String)
    {js0 : String}
    (hmt : cm.collection_metadata ∈ db.tables)
    (hr : db.rowLookup cm.collection_metadata nm = some js0) :
    (cm.set_metadata db nm P).2.2 = .ok () ∧
    (cm.set_metadata db nm P).1.name = cm.name ∧
    cacheLookup (cm.set_metadata db nm P).1.cache nm = some (some P) ∧
    ((cm.set_metadata db nm P).2.1).tables = db.tables ∧
    DB.rowLookup (cm.set_metadata db nm P).2.1 cm.collection_metadata nm = some P := by
  rw [set_metadata_ok nm P hmt]
  exact ⟨rfl, rfl, cacheLookup_set_self .., rfl, rowLookup_after_update P hr⟩

/-- C7. For a registered collection, `set_metadata(P1)` succeeds and a
following `get_metadata()` returns exactly `P1` — both through the same
handle (cache hit) and through a second, freshly constructed handle for
the same collection whose cache is empty (a real read of the backing
row); and after `set_metadata(P1)` then `set_metadata(P2)`, a subsequent
`get_metadata()` returns `P2` and never the superseded `P1`, again
through either handle. -/
theorem set_get_metadata_round_trip {tc : TableCollection} {cm : CollectionMetadata}
    {db : DB} (P1 P2 : String) {js0 : String}
    (hmt : cm.collection_metadata ∈ db.tables)
    (hr : db.rowLookup cm.collection_metadata tc.name = some js0) :
    (tc.set_metadata cm db P1).2.2 = .ok () ∧
    tc.get_metadata (tc.set_metadata cm db P1).1 (tc.set_metadata cm db P1).2.1 =
      ((tc.set_metadata cm db P1).1, (tc.set_metadata cm db P1).2.1, .ok P1) ∧
    (tc.get_metadata ⟨cm.name, []⟩ (tc.set_metadata cm db P1).2.1).2.2 = .ok P1 ∧
    (tc.set_metadata (tc.set_metadata cm db P1).1
        (tc.set_metadata cm db P1).2.1 P2).2.2 = .ok () ∧
    tc.get_metadata
        (tc.set_metadata (tc.set_metadata cm db P1).1
          (tc.set_metadata cm db P1).2.1 P2).1
        (tc.set_metadata (tc.set_metadata cm db P1).1
          (tc.set_metadata cm db P1).2.1 P2).2.1 =
      ((tc.set_metadata (tc.set_metadata cm db P1).1
          (tc.set_metadata cm db P1).2.1 P2).1,
       (tc.set_metadata (tc.set_metadata cm db P1).1
          (tc.set_metadata cm db P1).2.1 P2).2.1,
       .ok P2) ∧
    (tc.get_metadata ⟨cm.name, []⟩
        (tc.set_metadata (tc.set_metadata cm db P1).1
          (tc.set_metadata cm db P1).2.1 P2).2.1).2.2 = .ok P2 := by
  simp only [TableCollection.set_metadata, TableCollection.get_metadata]
  obtain ⟨h1ok, h1name, h1cache, h1tables, h1row⟩ :=
    set_metadata_outcome tc.name P1 hmt hr
  have hfcm : (⟨cm.name, []⟩ : CollectionMetadata).collection_metadata =
      cm.collection_metadata := rfl
  have hcm1 : ((cm.set_metadata db tc.name P1).1).collection_metadata =
      cm.collection_metadata := collection_metadata_eq_of_name h1name
  have hmt2 : ((cm.set_metadata db tc.name P1).1).collection_metadata ∈
      ((cm.set_metadata db tc.name P1).2.1).tables := by
    rw [hcm1, h1tables]; exact hmt
  have hrow2 : DB.rowLookup (cm.set_metadata db tc.name P1).2.1
      ((cm.set_metadata db tc.name P1).1).collection_metadata tc.name = some P1 := by
    rw [hcm1]; exact h1row
  obtain ⟨h2ok, h2name, h2cache, h2tables, h2row⟩ :=
    set_metadata_outcome tc.name P2 hmt2 hrow2
  refine ⟨h1ok, get_metadata_hit h1cache, ?_, h2ok, get_metadata_hit h2cache, ?_⟩
  · rw [@get_metadata_miss_found ⟨cm.name, []⟩ _ _ _ rfl
      (by rw [hfcm, h1tables]; exact hmt) (by rw [hfcm]; exact h1row)]
  · rw [@get_metadata_miss_found ⟨cm.name, []⟩ _ _ _ rfl
      (by rw [hfcm, h2tables, h1tables]; exact hmt)
      (by rw [hfcm, ← hcm1]; exact h2row)]

/-- C8. For a never-created collection name (no metadata row, nothing
cached), `get_metadata` raises `CollectionMissingError` carrying that
name, while `collection_exists` — and `TableCollection.exists`, which
delegates to it — returns `false` without raising; and after
`create_tables()` completes on that collection, `exists()` returns
`true`. -/
theorem missing_collection_signal {tc : TableCollection} {cm : CollectionMetadata}
    {db : DB} (metadata : Option String)
    (hb : ∀ t ∈ tc.sorted_tables, t ∉ db.broken)
    (htn : ∀ t ∈ tc.sorted_tables, t ∉ db.tables)
    (hnd : tc.sorted_tables.Nodup)
    (hc : cacheLookup cm.cache tc.name = none)
    (hmt : cm.collection_metadata ∈ db.tables)
    (hr : db.rowLookup cm.collection_metadata tc.name = none) :
    (cm.get_metadata db tc.name).2.2 = .error (.collectionMissing tc.name) ∧
    (cm.collection_exists db tc.name).2.2 = .ok false ∧
    (tc.exists' cm db).2.2 = .ok false ∧
    (tc.create_tables cm db metadata).2.2 = .ok () ∧
    tc.exists' (tc.create_tables cm db metadata).1
        (tc.create_tables cm db metadata).2.1 =
      ((tc.create_tables cm db metadata).1, (tc.create_tables cm db metadata).2.1,
       .ok true) := by
  refine ⟨?_, ?_, ?_, ?_, ?_⟩
  · rw [get_metadata_miss_absent hc hmt hr]
  · rw [collection_exists_miss_absent hc hmt hr]
  · simp only [TableCollection.exists']
    rw [collection_exists_miss_absent hc hmt hr]
  · rw [create_tables_fresh metadata hb htn hnd hc hmt hr]
  · simp only [TableCollection.exists']
    rw [create_tables_fresh metadata hb htn hnd hc hmt hr]
    exact collection_exists_hit_some (cacheLookup_set_self ..)

/-- C8 witness: concrete never-created collection `("Orders", "shop1")`
with one declared table, before and after `create_tables`. -/
theorem missing_collection_signal_witness :
    ((∀ t ∈ TableCollection.sorted_tables ⟨⟨"Orders", none, ["items"]⟩, "shop1"⟩,
        t ∉ (⟨["collection_metadata_Orders"], [], []⟩ : DB).broken) ∧
      (∀ t ∈ TableCollection.sorted_tables ⟨⟨"Orders", none, ["items"]⟩, "shop1"⟩,
        t ∉ (⟨["collection_metadata_Orders"], [], []⟩ : DB).tables) ∧
      (TableCollection.sorted_tables ⟨⟨"Orders", none, ["items"]⟩, "shop1"⟩).Nodup ∧
      cacheLookup ([] : Cache) "shop1" = none ∧
      CollectionMetadata.collection_metadata ⟨"Orders", []⟩ ∈
        (⟨["collection_metadata_Orders"], [], []⟩ : DB).tables ∧
      DB.rowLookup ⟨["collection_metadata_Orders"], [], []⟩
        (CollectionMetadata.collection_metadata ⟨"Orders", []⟩) "shop1" = none) ∧
    ((CollectionMetadata.get_metadata ⟨"Orders", []⟩
        ⟨["collection_metadata_Orders"], [], []⟩ "shop1").2.2 =
      .error (.collectionMissing "shop1") ∧
      (CollectionMetadata.collection_exists ⟨"Orders", []⟩
        ⟨["collection_metadata_Orders"], [], []⟩ "shop1").2.2 = .ok false ∧
      (TableCollection.exists' ⟨⟨"Orders", none, ["items"]⟩, "shop1"⟩ ⟨"Orders", []⟩
        ⟨["collection_metadata_Orders"], [], []⟩).2.2 = .ok false ∧
      (TableCollection.create_tables ⟨⟨"Orders", none, ["items"]⟩, "shop1"⟩
        ⟨"Orders", []⟩ ⟨["collection_metadata_Orders"], [], []⟩ none).2.2 = .ok () ∧
      TableCollection.exists' ⟨⟨"Orders", none, ["items"]⟩, "shop1"⟩
          (TableCollection.create_tables ⟨⟨"Orders", none, ["items"]⟩, "shop1"⟩
            ⟨"Orders", []⟩ ⟨["collection_metadata_Orders"], [], []⟩ none).1
          (TableCollection.create_tables ⟨⟨"Orders", none, ["items"]⟩, "shop1"⟩
            ⟨"Orders", []⟩ ⟨["collection_metadata_Orders"], [], []⟩ none).2.1 =
        ((TableCollection.create_tables ⟨⟨"Orders", none, ["items"]⟩, "shop1"⟩
            ⟨"Orders", []⟩ ⟨["collection_metadata_Orders"], [], []⟩ none).1,
         (TableCollection.create_tables ⟨⟨"Orders", none, ["items"]⟩, "shop1"⟩
            ⟨"Orders", []⟩ ⟨["collection_metadata_Orders"], [], []⟩ none).2.1,
         .ok true)) :=
  ⟨⟨by decide, by decide, by decide, rfl, by decide, by decide⟩,
   @missing_collection_signal ⟨⟨"Orders", none, ["items"]⟩, "shop1"⟩
     ⟨"Orders", []⟩ ⟨["collection_metadata_Orders"], [], []⟩ none
     (by decide) (by decide) (by decide) rfl (by decide) (by decide)⟩

/-- C7 witness: the round trip at a concrete registered collection
`("Orders", "shop1")` whose metadata row initially holds `"OLD"`,
with the payload sequence `"EUR"` then `"GBP"`. -/
theorem set_get_metadata_round_trip_witness :
    (CollectionMetadata.collection_metadata ⟨"Orders", []⟩ ∈
        (⟨["collection_metadata_Orders"],
          [⟨"collection_metadata_Orders", "shop1", "OLD"⟩], []⟩ : DB).tables ∧
      DB.rowLookup ⟨["collection_metadata_Orders"],
          [⟨"collection_metadata_Orders", "shop1", "OLD"⟩], []⟩
        (CollectionMetadata.collection_metadata ⟨"Orders", []⟩) "shop1" =
        some "OLD") ∧
    ((TableCollection.set_metadata ⟨⟨"Orders", none, ["items"]⟩, "shop1"⟩ ⟨"Orders", []⟩
        ⟨["collection_metadata_Orders"],
          [⟨"collection_metadata_Orders", "shop1", "OLD"⟩], []⟩ "EUR").2.2 = .ok () ∧
      (TableCollection.get_metadata ⟨⟨"Orders", none, ["items"]⟩, "shop1"⟩
          (TableCollection.set_metadata ⟨⟨"Orders", none, ["items"]⟩, "shop1"⟩
            ⟨"Orders", []⟩ ⟨["collection_metadata_Orders"],
              [⟨"collection_metadata_Orders", "shop1", "OLD"⟩], []⟩ "EUR").1
          (TableCollection.set_metadata ⟨⟨"Orders", none, ["items"]⟩, "shop1"⟩
            ⟨"Orders", []⟩ ⟨["collection_metadata_Orders"],
              [⟨"collection_metadata_Orders", "shop1", "OLD"⟩], []⟩ "EUR").2.1).2.2 =
        .ok "EUR" ∧
      (TableCollection.get_metadata ⟨⟨"Orders", none, ["items"]⟩, "shop1"⟩
          ⟨CollectionMetadata.name ⟨"Orders", []⟩, []⟩
          (TableCollection.set_metadata ⟨⟨"Orders", none, ["items"]⟩, "shop1"⟩
            ⟨"Orders", []⟩ ⟨["collection_metadata_Orders"],
              [⟨"collection_metadata_Orders", "shop1", "OLD"⟩], []⟩ "EUR").2.1).2.2 =
        .ok "EUR" ∧
      (TableCollection.get_metadata ⟨⟨"Orders", none, ["items"]⟩, "shop1"⟩
          ⟨CollectionMetadata.name ⟨"Orders", []⟩, []⟩
          (TableCollection.set_metadata ⟨⟨"Orders", none, ["items"]⟩, "shop1"⟩
            (TableCollection.set_metadata ⟨⟨"Orders", none, ["items"]⟩, "shop1"⟩
              ⟨"Orders", []⟩ ⟨["collection_metadata_Orders"],
                [⟨"collection_metadata_Orders", "shop1", "OLD"⟩], []⟩ "EUR").1
            (TableCollection.set_metadata ⟨⟨"Orders", none, ["items"]⟩, "shop1"⟩
              ⟨"Orders", []⟩ ⟨["collection_metadata_Orders"],
                [⟨"collection_metadata_Orders", "shop1", "OLD"⟩], []⟩ "EUR").2.1
            "GBP").2.1).2.2 = .ok "GBP") := by
  have h := @set_get_metadata_round_trip
    ⟨⟨"Orders", none, ["items"]⟩, "shop1"⟩ ⟨"Orders", []⟩
    ⟨["collection_metadata_Orders"],
      [⟨"collection_metadata_Orders", "shop1", "OLD"⟩], []⟩
    "EUR" "GBP" "OLD" (by decide) (by decide)
  exact ⟨⟨by decide, by decide⟩, h.1, by rw [h.2.1], h.2.2.1, h.2.2.2.2.2⟩

end Aludel
